import Mathlib

/-!
Verification of the training-run controller in
modules/train/pytorch/train_pose_net.py (DeepPoseComparison).

The Python source is shallowly embedded:
- the filesystem and CUDA availability become an explicit environment Env;
- exceptions (GPUNotFoundError, FileNotFoundError,
  UnknownOptimizationMethodError, TypeError from os.path.isfile(None),
  IndexError from logs[-1], ZeroDivisionError from epoch % 0) become an
  Except over an error type Err;
- tqdm.write to the live stream and to the log file become lists of lines
  carried in the TrainLogger state;
- the integer arithmetic of the source (Python 2 semantics: epoch/10 is
  floor division on ints) becomes Nat arithmetic, with x % 0 modelled as a
  raised ZeroDivisionError where the source would raise.
-/

namespace TrainPoseNetPy

/-- The exception taxonomy raised by the source module. -/
inductive Err where
  | gpuNotFound
  | fileNotFound (path : String)
  | unknownOptimizationMethod (name : String)
  | typeError
  | indexError
  | zeroDivisionError
  deriving DecidableEq, Repr

/-- External environment of the process: which paths are existing regular
files (os.path.isfile) and whether CUDA reports a device
(torch.cuda.is_available). -/
structure Env where
  isfile : String → Bool
  cudaAvailable : Bool

/-- The constructor keyword arguments of TrainPoseNet (lines 75-87).
gpu is the raw integer kwarg; the source derives the boolean flag as
kwargs[gpu] >= 0 (line 79). resume, resume_model and resume_opt are
optional paths (None when absent). -/
structure RunConfig where
  Nj : Nat
  use_visibility : Bool
  epoch : Nat
  gpu : Int
  opt : String
  train : String
  val : String
  batchsize : Nat
  out : String
  resume : Option String
  resume_model : Option String
  resume_opt : Option String

/-- State of TrainLogger: lines emitted to the live stream (tqdm.write),
lines written to the durable log file, and the in-memory logs list. -/
structure TrainLogger where
  stream : List String
  file : List String
  logs : List String
  deriving DecidableEq, Repr

/-- TrainLogger.__init__ (lines 24-30): a fresh logger with an empty logs
list, a newly opened (hence empty) file, and nothing yet on the stream.
The makedirs/open side effects are modelled separately as Effect values. -/
def TrainLogger.init : TrainLogger :=
  { stream := [], file := [], logs := [] }

/-- TrainLogger.write (lines 32-36): emit to the live stream, write to the
file, append to logs. -/
def TrainLogger.write (l : TrainLogger) (log : String) : TrainLogger :=
  { stream := l.stream ++ [log]
    file := l.file ++ [log]
    logs := l.logs ++ [log] }

/-- TrainLogger.state_dict (lines 38-40): the dict wraps only the logs
list, so the state is the logs list. -/
def TrainLogger.state_dict (l : TrainLogger) : List String :=
  l.logs

/-- TrainLogger.load_state_dict (lines 42-48): replace logs with the given
list, re-emit logs[-1] to the live stream (an IndexError, hence none, when
the list is empty), then write every entry to the file in order. -/
def TrainLogger.load_state_dict (l : TrainLogger) (logs : List String) :
    Option TrainLogger :=
  match logs.getLast? with
  | none => none
  | some last =>
      some { stream := l.stream ++ [last]
             file := l.file ++ logs
             logs := logs }

/-- The run-metadata dict saved by _checkpoint into the .iter artifact:
{epoch: E+1, logger: {logs: ...}} (line 142). The epoch field already
holds the incremented value. -/
structure RunMetadata where
  epoch : Nat
  logs : List String
  deriving DecidableEq, Repr

/-- _checkpoint (lines 140-144), run-metadata part: the .iter artifact
stores epoch + 1 together with the logger state_dict. -/
def checkpoint_iter (epoch : Nat) (logger : TrainLogger) : RunMetadata :=
  { epoch := epoch + 1, logs := logger.state_dict }

/-- The resume branch of start (lines 183-186): start_epoch is taken from
the metadata and the logger is restored via load_state_dict; an IndexError
inside load_state_dict aborts the run. -/
def resume_load (meta : RunMetadata) (logger : TrainLogger) :
    Except Err (Nat × TrainLogger) :=
  match logger.load_state_dict meta.logs with
  | none => .error .indexError
  | some l => .ok (meta.epoch, l)

/-- The body of the per-path check in _validate_arguments lines 100-103:
os.path.isfile(None) raises TypeError; a set path must be an existing
file, else FileNotFoundError. -/
def check_resume_paths (env : Env) : List (Option String) → Except Err Unit
  | [] => .ok ()
  | p :: rest =>
      match p with
      | none => .error .typeError
      | some s =>
          if env.isfile s then check_resume_paths env rest
          else .error (.fileNotFound s)

/-- _validate_arguments (lines 91-103), with the source order of checks:
GPU, train path, val path, optimizer name, then (only when resume is not
None) the three resume paths. -/
def validate_arguments (cfg : RunConfig) (env : Env) : Except Err Unit :=
  if 0 ≤ cfg.gpu ∧ env.cudaAvailable = false then .error .gpuNotFound
  else if env.isfile cfg.train = false then .error (.fileNotFound cfg.train)
  else if env.isfile cfg.val = false then .error (.fileNotFound cfg.val)
  else if cfg.opt ≠ "MomentumSGD" ∧ cfg.opt ≠ "Adam" then
    .error (.unknownOptimizationMethod cfg.opt)
  else
    match cfg.resume with
    | none => .ok ()
    | some r => check_resume_paths env [some r, cfg.resume_model, cfg.resume_opt]

/-- The optimizer configurations the selector can build. -/
inductive OptimizerSpec where
  | sgd (lr momentum : ℚ)
  | adam
  deriving DecidableEq, Repr

/-- _get_optimizer (lines 105-110): SGD with lr=0.01, momentum=0.9 for
MomentumSGD, Adam with defaults for Adam; any other name leaves the local
variable unbound (UnboundLocalError), modelled as none. -/
def get_optimizer (opt : String) : Option OptimizerSpec :=
  if opt = "MomentumSGD" then some (.sgd 0.01 0.9)
  else if opt = "Adam" then some .adam
  else none

/-- Outcome of the epoch loop of start (lines 188-193): which epochs ran a
training pass, which ran a validation pass, which saved a checkpoint, and
whether the loop completed (false when epoch % 0 raised
ZeroDivisionError). -/
structure LoopResult where
  trained : List Nat
  validated : List Nat
  checkpointed : List Nat
  completed : Bool
  deriving DecidableEq, Repr

/-- One pass of the loop body per epoch, over the list of epochs to run.
Per the source order: _train always runs, then the epoch % 10 validation
check, then the epoch % resume_interval checkpoint check, which raises
ZeroDivisionError when the interval is 0 and stops the loop there. -/
def runEpochs (interval : Nat) : List Nat → LoopResult
  | [] => { trained := [], validated := [], checkpointed := [], completed := true }
  | e :: rest =>
      let v : List Nat := if e % 10 = 0 then [e] else []
      if interval = 0 then
        { trained := [e], validated := v, checkpointed := [], completed := false }
      else
        let r := runEpochs interval rest
        { trained := e :: r.trained
          validated := v ++ r.validated
          checkpointed := (if e % interval = 0 then [e] else []) ++ r.checkpointed
          completed := r.completed }

/-- The epochs visited by trange(start_epoch, self.epoch + 1) (line 188). -/
def epochRange (start_epoch total : Nat) : List Nat :=
  List.range' start_epoch (total + 1 - start_epoch)

/-- The schedule realised by start (lines 176-193): val_interval is the
constant 10, resume_interval is total/10 (floor division), and the loop
runs over epochRange. -/
def trainSchedule (start_epoch total : Nat) : LoopResult :=
  runEpochs (total / 10) (epochRange start_epoch total)

/-- Directory/file creation side effects, for tracking what a run touches
before and after validation. -/
inductive Effect where
  | makedirs (path : String)
  | openLogFile (path : String)
  deriving DecidableEq, Repr

/-- Constructing TrainLogger(os.path.join(self.out, pytorch)) (line 181)
creates the output directory and opens the log file inside it. -/
def startEffects (cfg : RunConfig) : List Effect :=
  [Effect.makedirs (cfg.out ++ "/pytorch"),
   Effect.openLogFile (cfg.out ++ "/pytorch/log")]

/-- Environment extension: torch.load of the run-metadata artifact is an
oracle from the path to its deserialized contents. -/
structure LoadEnv extends Env where
  loadMetadata : String → RunMetadata

/-- TrainPoseNet.__init__ followed by start: validation gates everything
(line 89); only then the logger is constructed (line 181, emitting the
directory/file effects), the resume metadata is loaded if configured
(lines 183-186) and the epoch loop runs (lines 188-193). -/
def run (cfg : RunConfig) (env : LoadEnv) :
    Except Err LoopResult × List Effect :=
  match validate_arguments cfg env.toEnv with
  | .error e => (.error e, [])
  | .ok _ =>
      let eff := startEffects cfg
      match cfg.resume with
      | none => (.ok (trainSchedule 1 cfg.epoch), eff)
      | some r =>
          match resume_load (env.loadMetadata r) TrainLogger.init with
          | .error e => (.error e, eff)
          | .ok sl => (.ok (trainSchedule sl.fst cfg.epoch), eff)

/-- A concrete filesystem for concrete checks: the dataset files and a
full checkpoint triple exist. -/
def envW : Env :=
  { isfile := fun s =>
      s = "train.txt" ∨ s = "val.txt" ∨
      s = "epoch-40.iter" ∨ s = "epoch-40.model" ∨ s = "epoch-40.state"
    cudaAvailable := false }

/-- A concrete baseline configuration: CPU run, Adam, no resume. -/
def cfgBase : RunConfig :=
  { Nj := 14
    use_visibility := true
    epoch := 100
    gpu := -1
    opt := "Adam"
    train := "train.txt"
    val := "val.txt"
    batchsize := 32
    out := "result"
    resume := none
    resume_model := none
    resume_opt := none }

/-- A configuration with only the model-weights resume path set: the
run-metadata path is None, so lines 100-103 never look at it. -/
def cfgPartialResume : RunConfig :=
  { cfgBase with resume_model := some "epoch-40.model" }

/-- A configuration with the full existing resume triple. -/
def cfgFullResume : RunConfig :=
  { cfgBase with
      resume := some "epoch-40.iter"
      resume_model := some "epoch-40.model"
      resume_opt := some "epoch-40.state" }

/-- A configuration requesting GPU device 0. -/
def cfgGpu : RunConfig :=
  { cfgBase with gpu := 0 }

/-- The concrete filesystem together with a torch.load oracle for the
run-metadata artifact. -/
def loadEnvW : LoadEnv :=
  { toEnv := envW
    loadMetadata := fun _ => { epoch := 41, logs := ["Loss: 0.5"] } }

end TrainPoseNetPy

/-! ## Helper lemmas -/

namespace TrainPoseNetPy

/-- With a nonzero checkpoint interval the loop visits every epoch of the
list, validates exactly at the multiples of 10, checkpoints exactly at the
multiples of the interval, and completes. -/
theorem runEpochs_pos {interval : ℕ} (h : interval ≠ 0) (l : List ℕ) :
    runEpochs interval l =
      { trained := l
        validated := l.filter (fun e => e % 10 = 0)
        checkpointed := l.filter (fun e => e % interval = 0)
        completed := true } := by
  induction l with
  | nil => rfl
  | cons e rest ih =>
      simp only [runEpochs, if_neg h, ih, List.filter_cons]
      by_cases h10 : e % 10 = 0 <;> by_cases hi : e % interval = 0 <;>
        simp [h10, hi]

/-- With a zero interval the loop trains the first epoch, possibly
validates it, then raises ZeroDivisionError at the checkpoint check. -/
theorem runEpochs_zero_cons (e : ℕ) (rest : List ℕ) :
    runEpochs 0 (e :: rest) =
      { trained := [e]
        validated := if e % 10 = 0 then [e] else []
        checkpointed := []
        completed := false } := rfl

theorem mem_epochRange {e S T : ℕ} : e ∈ epochRange S T ↔ S ≤ e ∧ e ≤ T := by
  unfold epochRange
  rw [List.mem_range'_1]
  omega

theorem epochRange_cons {S T : ℕ} (h : S ≤ T) :
    epochRange S T = S :: List.range' (S + 1) (T - S) := by
  unfold epochRange
  have h1 : T + 1 - S = (T - S) + 1 := by omega
  rw [h1, List.range'_succ]

/-- Restoring a non-empty snapshot replaces logs, re-emits the last entry
to the stream and appends the whole snapshot to the file. -/
theorem load_state_dict_of_ne_nil (l : TrainLogger) (s : List String) (h : s ≠ []) :
    l.load_state_dict s =
      some { stream := l.stream ++ [s.getLast h]
             file := l.file ++ s
             logs := s } := by
  unfold TrainLogger.load_state_dict
  rw [List.getLast?_eq_getLast s h]

theorem check_resume_paths_ok_iff (env : Env) (r : String) (pm po : Option String) :
    check_resume_paths env [some r, pm, po] = .ok () ↔
      (env.isfile r = true ∧
       (∃ s, pm = some s ∧ env.isfile s = true) ∧
       (∃ s, po = some s ∧ env.isfile s = true)) := by
  by_cases hr : env.isfile r = true
  · cases pm with
    | none => simp [check_resume_paths, hr]
    | some spm =>
        by_cases hpm : env.isfile spm = true
        · cases po with
          | none => simp [check_resume_paths, hr, hpm]
          | some spo =>
              by_cases hpo : env.isfile spo = true <;>
                simp [check_resume_paths, hr, hpm, hpo]
        · simp [check_resume_paths, hr, hpm]
  · simp [check_resume_paths, hr]

theorem check_resume_paths_error_mem (env : Env) (l : List (Option String)) (e : Err)
    (h : check_resume_paths env l = .error e) :
    e = .typeError ∨
      ∃ p, e = .fileNotFound p ∧ some p ∈ l ∧ env.isfile p = false := by
  induction l with
  | nil => simp [check_resume_paths] at h
  | cons q rest ih =>
      cases q with
      | none =>
          simp only [check_resume_paths] at h
          exact Or.inl (by injection h with h1; exact h1.symm)
      | some s =>
          by_cases hs : env.isfile s = true
          · simp only [check_resume_paths, if_pos hs] at h
            rcases ih h with h1 | ⟨p, hp1, hp2, hp3⟩
            · exact Or.inl h1
            · exact Or.inr ⟨p, hp1, by simp [hp2], hp3⟩
          · simp only [check_resume_paths, if_neg hs] at h
            refine Or.inr ⟨s, by injection h with h1; exact h1.symm, by simp, by simpa using hs⟩

/-- The validator accepts exactly when the GPU check, both dataset-path
checks, the optimizer-name check and (when resume is set) the
resume-triple check all pass. -/
theorem validate_ok_iff (cfg : RunConfig) (env : Env) :
    validate_arguments cfg env = .ok () ↔
      ((0 ≤ cfg.gpu → env.cudaAvailable = true) ∧
       (env.isfile cfg.train = true ∧ env.isfile cfg.val = true) ∧
       (cfg.opt = "MomentumSGD" ∨ cfg.opt = "Adam") ∧
       (∀ r, cfg.resume = some r →
         env.isfile r = true ∧
         (∃ s, cfg.resume_model = some s ∧ env.isfile s = true) ∧
         (∃ s, cfg.resume_opt = some s ∧ env.isfile s = true))) := by
  by_cases h1 : 0 ≤ cfg.gpu ∧ env.cudaAvailable = false
  · rw [validate_arguments, if_pos h1]
    constructor
    · intro h; simp at h
    · rintro ⟨hg, -⟩
      exact absurd (hg h1.1) (by simp [h1.2])
  · have hc1 : 0 ≤ cfg.gpu → env.cudaAvailable = true := by
      intro hg
      by_contra hcu
      exact h1 ⟨hg, by simpa using hcu⟩
    rw [validate_arguments, if_neg h1]
    by_cases h2 : env.isfile cfg.train = false
    · rw [if_pos h2]
      constructor
      · intro h; simp at h
      · rintro ⟨-, ⟨htr, -⟩, -⟩; simp [h2] at htr
    · have htr : env.isfile cfg.train = true := by simpa using h2
      rw [if_neg h2]
      by_cases h3 : env.isfile cfg.val = false
      · rw [if_pos h3]
        constructor
        · intro h; simp at h
        · rintro ⟨-, ⟨-, hv⟩, -⟩; simp [h3] at hv
      · have hv : env.isfile cfg.val = true := by simpa using h3
        rw [if_neg h3]
        by_cases h4 : cfg.opt ≠ "MomentumSGD" ∧ cfg.opt ≠ "Adam"
        · rw [if_pos h4]
          constructor
          · intro h; simp at h
          · rintro ⟨-, -, hopt, -⟩
            rcases hopt with h | h
            · exact (h4.1 h).elim
            · exact (h4.2 h).elim
        · rw [if_neg h4]
          have hopt : cfg.opt = "MomentumSGD" ∨ cfg.opt = "Adam" := by
            by_contra hno
            push_neg at hno
            exact h4 ⟨hno.1, hno.2⟩
          cases hres : cfg.resume with
          | none =>
              simp only [hres]
              constructor
              · intro _
                refine ⟨hc1, ⟨htr, hv⟩, hopt, ?_⟩
                intro r hr
                exact Option.noConfusion hr
              · intro _; trivial
          | some r =>
              simp only [hres]
              rw [check_resume_paths_ok_iff]
              constructor
              · rintro ⟨hr, hpm, hpo⟩
                refine ⟨hc1, ⟨htr, hv⟩, hopt, ?_⟩
                intro r2 hr2
                injection hr2 with hrr
                subst hrr
                exact ⟨hr, hpm, hpo⟩
              · rintro ⟨-, -, -, h4r⟩
                exact h4r r rfl

/-! ## Claims -/

/-- Claim C1, counterexample: with total_epochs = 5 the claimed cadence
E mod max(1, 5/10) = E mod 1 = 0 would save a checkpoint at every epoch
1..5, but the run saves none: resume_interval = 5/10 = 0 and the first
epoch evaluates 1 % 0, a ZeroDivisionError, so the checkpoint step is
not well-defined for T < 10 and the loop aborts. -/
theorem checkpoint_cadence_cex :
    (trainSchedule 1 5).checkpointed = [] ∧
    (trainSchedule 1 5).completed = false ∧
    (epochRange 1 5).filter (fun e => e % max 1 (5 / 10) = 0) = [1, 2, 3, 4, 5] ∧
    (trainSchedule 1 5).checkpointed ≠
      (epochRange 1 5).filter (fun e => e % max 1 (5 / 10) = 0) := by
  decide

/-- Claim C1, amended: for T ≥ 10 the controller saves a checkpoint
exactly at the epochs E of the run range with E mod (T/10) = 0 (there
max(1, T/10) = T/10) and completes; for T < 10 with at least one epoch to
run, the loop aborts with ZeroDivisionError at its first epoch and saves
no checkpoint at all. -/
theorem checkpoint_cadence_amended (S T : ℕ) :
    (10 ≤ T →
      (trainSchedule S T).checkpointed =
        (epochRange S T).filter (fun e => e % (T / 10) = 0) ∧
      (trainSchedule S T).completed = true) ∧
    (T < 10 → S ≤ T →
      (trainSchedule S T).checkpointed = [] ∧
      (trainSchedule S T).completed = false) := by
  constructor
  · intro hT
    have hi : T / 10 ≠ 0 := by omega
    rw [trainSchedule, runEpochs_pos hi]
    exact ⟨rfl, rfl⟩
  · intro hT hST
    have hi : T / 10 = 0 := by omega
    rw [trainSchedule, hi, epochRange_cons hST, runEpochs_zero_cons]
    exact ⟨rfl, rfl⟩

/-- Claim C1 amended, witness at T = 37 (checkpoint interval 3) and the
aborting case T = 5. -/
theorem checkpoint_cadence_amended_witness :
    ((trainSchedule 1 37).checkpointed =
       (epochRange 1 37).filter (fun e => e % (37 / 10) = 0) ∧
     (trainSchedule 1 37).completed = true) ∧
    ((trainSchedule 1 5).checkpointed = [] ∧
     (trainSchedule 1 5).completed = false) :=
  ⟨(checkpoint_cadence_amended 1 37).1 (by decide),
   (checkpoint_cadence_amended 1 5).2 (by decide) (by decide)⟩

/-- Claim C2, counterexample: saving at epoch 1 with an empty log history
and loading back does not yield that history: the metadata does hold
next_epoch = 2, but the logger restore indexes logs[-1] of the empty list
and raises IndexError, so the load errors instead of yielding the
history. -/
theorem checkpoint_roundtrip_cex :
    resume_load (checkpoint_iter 1 TrainLogger.init) TrainLogger.init =
      .error .indexError ∧
    (checkpoint_iter 1 TrainLogger.init).epoch = 2 :=
  ⟨rfl, rfl⟩

/-- Claim C2, amended: when the log history at save time is non-empty,
saving a checkpoint at epoch E and loading its run metadata yields
start_epoch = E + 1 and a restored log history equal to the saved one
(same entries, same order). -/
theorem checkpoint_roundtrip_amended (E : ℕ) (saver target : TrainLogger)
    (h : saver.logs ≠ []) :
    ∃ l2, resume_load (checkpoint_iter E saver) target = .ok (E + 1, l2) ∧
      l2.state_dict = saver.state_dict := by
  refine ⟨{ stream := target.stream ++ [saver.logs.getLast h]
            file := target.file ++ saver.logs
            logs := saver.logs }, ?_, rfl⟩
  unfold resume_load checkpoint_iter
  simp only [TrainLogger.state_dict]
  rw [load_state_dict_of_ne_nil target saver.logs h]

/-- Claim C2 amended, witness: a one-entry history saved at epoch 40
loads back as start epoch 41 with the same history. -/
theorem checkpoint_roundtrip_amended_witness :
    (TrainLogger.init.write "Loss: 0.5").logs ≠ [] ∧
    ∃ l2, resume_load
        (checkpoint_iter 40 (TrainLogger.init.write "Loss: 0.5"))
        TrainLogger.init = .ok (41, l2) ∧
      l2.state_dict = (TrainLogger.init.write "Loss: 0.5").state_dict :=
  ⟨by decide,
   checkpoint_roundtrip_amended 40 (TrainLogger.init.write "Loss: 0.5")
     TrainLogger.init (by decide)⟩

/-- Claim C3, counterexample: a configuration whose model-weights resume
path is set while the run-metadata resume path is None passes validation,
because lines 100-103 check the triple only when resume is not None; so a
validated configuration can have a partially-set resume triple. -/
theorem resume_invariant_cex :
    validate_arguments cfgPartialResume envW = .ok () ∧
    cfgPartialResume.resume = none ∧
    cfgPartialResume.resume_model = some "epoch-40.model" ∧
    cfgPartialResume.resume_opt = none :=
  ⟨rfl, rfl, rfl, rfl⟩

/-- Claim C3, amended: the invariant holds only relative to the
run-metadata path: if validation accepts and resume is set, then all
three resume paths are set and reference existing files; when resume is
None the other two resume paths are not inspected at all. -/
theorem resume_invariant_amended (cfg : RunConfig) (env : Env)
    (hok : validate_arguments cfg env = .ok ())
    (r : String) (hr : cfg.resume = some r) :
    env.isfile r = true ∧
    (∃ s, cfg.resume_model = some s ∧ env.isfile s = true) ∧
    (∃ s, cfg.resume_opt = some s ∧ env.isfile s = true) :=
  ((validate_ok_iff cfg env).1 hok).2.2.2 r hr

/-- Claim C3 amended, witness: the full existing resume triple validates
and satisfies the invariant. -/
theorem resume_invariant_amended_witness :
    validate_arguments cfgFullResume envW = .ok () ∧
    (envW.isfile "epoch-40.iter" = true ∧
     (∃ s, cfgFullResume.resume_model = some s ∧ envW.isfile s = true) ∧
     (∃ s, cfgFullResume.resume_opt = some s ∧ envW.isfile s = true)) :=
  ⟨rfl, resume_invariant_amended cfgFullResume envW rfl "epoch-40.iter" rfl⟩

/-- Claim C4: the validator accepts iff the GPU check, both dataset-path
checks, the optimizer-name check and the resume-triple check all pass,
and when it rejects it reports the first violated check in source order:
GPUNotFoundError, then FileNotFoundError naming the first missing dataset
path, then UnknownOptimizationMethodError, then a check-4 error naming a
missing resume artifact (or the TypeError raised by os.path.isfile(None)
on an unset resume path). -/
theorem validator_accepts_iff (cfg : RunConfig) (env : Env) :
    (validate_arguments cfg env = .ok () ↔
      ((0 ≤ cfg.gpu → env.cudaAvailable = true) ∧
       (env.isfile cfg.train = true ∧ env.isfile cfg.val = true) ∧
       (cfg.opt = "MomentumSGD" ∨ cfg.opt = "Adam") ∧
       (∀ r, cfg.resume = some r →
         env.isfile r = true ∧
         (∃ s, cfg.resume_model = some s ∧ env.isfile s = true) ∧
         (∃ s, cfg.resume_opt = some s ∧ env.isfile s = true)))) ∧
    (0 ≤ cfg.gpu → env.cudaAvailable = false →
       validate_arguments cfg env = .error .gpuNotFound) ∧
    ((0 ≤ cfg.gpu → env.cudaAvailable = true) →
       env.isfile cfg.train = false →
       validate_arguments cfg env = .error (.fileNotFound cfg.train)) ∧
    ((0 ≤ cfg.gpu → env.cudaAvailable = true) →
       env.isfile cfg.train = true → env.isfile cfg.val = false →
       validate_arguments cfg env = .error (.fileNotFound cfg.val)) ∧
    ((0 ≤ cfg.gpu → env.cudaAvailable = true) →
       env.isfile cfg.train = true → env.isfile cfg.val = true →
       cfg.opt ≠ "MomentumSGD" → cfg.opt ≠ "Adam" →
       validate_arguments cfg env = .error (.unknownOptimizationMethod cfg.opt)) ∧
    ((0 ≤ cfg.gpu → env.cudaAvailable = true) →
       env.isfile cfg.train = true → env.isfile cfg.val = true →
       (cfg.opt = "MomentumSGD" ∨ cfg.opt = "Adam") →
       ∀ r, cfg.resume = some r →
       ¬ (env.isfile r = true ∧
          (∃ s, cfg.resume_model = some s ∧ env.isfile s = true) ∧
          (∃ s, cfg.resume_opt = some s ∧ env.isfile s = true)) →
       ∃ e, validate_arguments cfg env = .error e ∧
         (e = .typeError ∨ ∃ p, e = .fileNotFound p ∧
           (cfg.resume = some p ∨ cfg.resume_model = some p ∨
            cfg.resume_opt = some p) ∧
           env.isfile p = false)) := by
  refine ⟨validate_ok_iff cfg env, ?_, ?_, ?_, ?_, ?_⟩
  · intro hg hcu
    rw [validate_arguments, if_pos ⟨hg, hcu⟩]
  · intro hc1 h2
    have h1 : ¬(0 ≤ cfg.gpu ∧ env.cudaAvailable = false) := by
      rintro ⟨ha, hb⟩
      simp [hc1 ha] at hb
    rw [validate_arguments, if_neg h1, if_pos h2]
  · intro hc1 htr hv
    have h1 : ¬(0 ≤ cfg.gpu ∧ env.cudaAvailable = false) := by
      rintro ⟨ha, hb⟩
      simp [hc1 ha] at hb
    rw [validate_arguments, if_neg h1, if_neg (by simp [htr]), if_pos hv]
  · intro hc1 htr hv hM hA
    have h1 : ¬(0 ≤ cfg.gpu ∧ env.cudaAvailable = false) := by
      rintro ⟨ha, hb⟩
      simp [hc1 ha] at hb
    rw [validate_arguments, if_neg h1, if_neg (by simp [htr]),
      if_neg (by simp [hv]), if_pos ⟨hM, hA⟩]
  · intro hc1 htr hv hopt r hres hbad
    have h1 : ¬(0 ≤ cfg.gpu ∧ env.cudaAvailable = false) := by
      rintro ⟨ha, hb⟩
      simp [hc1 ha] at hb
    have h4 : ¬(cfg.opt ≠ "MomentumSGD" ∧ cfg.opt ≠ "Adam") := by
      rintro ⟨hm, ha⟩
      rcases hopt with h | h
      · exact hm h
      · exact ha h
    rw [validate_arguments, if_neg h1, if_neg (by simp [htr]),
      if_neg (by simp [hv]), if_neg h4, hres]
    show ∃ e, check_resume_paths env [some r, cfg.resume_model, cfg.resume_opt] = .error e ∧
      (e = .typeError ∨ ∃ p, e = .fileNotFound p ∧
        (some r = some p ∨ cfg.resume_model = some p ∨ cfg.resume_opt = some p) ∧
        env.isfile p = false)
    cases hcp : check_resume_paths env [some r, cfg.resume_model, cfg.resume_opt] with
    | ok u =>
        cases u
        exact absurd ((check_resume_paths_ok_iff env r _ _).1 hcp) hbad
    | error e =>
        refine ⟨e, rfl, ?_⟩
        rcases check_resume_paths_error_mem env _ e hcp with h | ⟨p, hp1, hp2, hp3⟩
        · exact Or.inl h
        · refine Or.inr ⟨p, hp1, ?_, hp3⟩
          simp only [List.mem_cons, List.not_mem_nil, or_false] at hp2
          rcases hp2 with h | h | h
          · exact Or.inl h.symm
          · exact Or.inr (Or.inl h.symm)
          · exact Or.inr (Or.inr h.symm)

/-- Claim C4 witness: the baseline CPU configuration is accepted via the
four checks, and the GPU-requesting configuration without CUDA is
rejected with the first check's error. -/
theorem validator_accepts_iff_witness :
    validate_arguments cfgBase envW = .ok () ∧
    validate_arguments cfgGpu envW = .error .gpuNotFound :=
  ⟨(validator_accepts_iff cfgBase envW).1.mpr
     ⟨by decide, ⟨rfl, rfl⟩, Or.inr rfl, fun r hr => Option.noConfusion hr⟩,
   (validator_accepts_iff cfgGpu envW).2.1 (by decide) rfl⟩

/-- Claim C5, counterexample: a resumed run with next_epoch = 2 and total
epochs 5 should, per the claim, execute epochs 2,3,4,5; the code trains
epoch 2 only and then aborts at the checkpoint step (2 % 0,
ZeroDivisionError), so epochs 3..5 never execute. -/
theorem epoch_sequence_cex :
    (trainSchedule 2 5).trained = [2] ∧
    (trainSchedule 2 5).trained ≠ [2, 3, 4, 5] ∧
    (trainSchedule 2 5).completed = false := by
  decide

/-- Claim C5, amended: the loop iterates over S, S+1, ..., T in order;
when T ≥ 10 every one of those epochs runs a training pass; when T < 10
only epoch S is trained before the ZeroDivisionError abort. In either
case the first epoch executed is S — epoch S-1 is never re-run — and a
fresh start has S = 1. -/
theorem epoch_sequence_amended (S T : ℕ) (hS : 1 ≤ S) (hST : S ≤ T) :
    (10 ≤ T → (trainSchedule S T).trained = epochRange S T) ∧
    (T < 10 → (trainSchedule S T).trained = [S]) ∧
    (trainSchedule S T).trained.head? = some S ∧
    S - 1 ∉ (trainSchedule S T).trained ∧
    (∀ e, e ∈ epochRange S T ↔ S ≤ e ∧ e ≤ T) := by
  have hcons := epochRange_cons hST
  by_cases hT : 10 ≤ T
  · have hi : T / 10 ≠ 0 := by omega
    rw [trainSchedule, runEpochs_pos hi]
    refine ⟨fun _ => rfl, fun h => absurd hT (by omega), ?_, ?_,
      fun e => mem_epochRange⟩
    · rw [hcons]
      rfl
    · simp only [mem_epochRange]
      omega
  · have hi : T / 10 = 0 := by omega
    rw [trainSchedule, hi, hcons, runEpochs_zero_cons]
    refine ⟨fun h => absurd h hT, fun _ => rfl, rfl, ?_,
      fun e => by rw [← hcons]; exact mem_epochRange⟩
    simp only [List.mem_singleton]
    omega

/-- Claim C5 amended, witness at the spec's example: resume at epoch 41
of 100 total epochs runs exactly 41..100 and never re-runs epoch 40. -/
theorem epoch_sequence_amended_witness :
    (trainSchedule 41 100).trained = epochRange 41 100 ∧
    (trainSchedule 41 100).trained.head? = some 41 ∧
    41 - 1 ∉ (trainSchedule 41 100).trained := by
  have h := epoch_sequence_amended 41 100 (by decide) (by decide)
  exact ⟨h.1 (by decide), h.2.2.1, h.2.2.2.1⟩

/-- Claim C6: restoring a Run Logger from a non-empty snapshot s succeeds
and a new snapshot yields exactly s (same entries, same order); the
restore re-emits the most recent entry of s to the live stream and
re-writes every entry of s, in order, to the durable file. -/
theorem logger_restore_roundtrip (l : TrainLogger) (s : List String)
    (h : s ≠ []) :
    ∃ l2, l.load_state_dict s = some l2 ∧
      l2.state_dict = s ∧
      l2.stream = l.stream ++ [s.getLast h] ∧
      l2.file = l.file ++ s :=
  ⟨_, load_state_dict_of_ne_nil l s h, rfl, rfl, rfl⟩

/-- Claim C6 witness on a concrete logger and two-entry snapshot. -/
theorem logger_restore_roundtrip_witness :
    (["Loss: 1.0", "Loss: 0.5"] : List String) ≠ [] ∧
    ∃ l2, (TrainLogger.init.write "Validation/Loss: 0.2").load_state_dict
        ["Loss: 1.0", "Loss: 0.5"] = some l2 ∧
      l2.state_dict = ["Loss: 1.0", "Loss: 0.5"] ∧
      l2.file = (TrainLogger.init.write "Validation/Loss: 0.2").file ++
        ["Loss: 1.0", "Loss: 0.5"] := by
  refine ⟨by decide, ?_⟩
  obtain ⟨l2, h1, h2, h3, h4⟩ :=
    logger_restore_roundtrip (TrainLogger.init.write "Validation/Loss: 0.2")
      ["Loss: 1.0", "Loss: 0.5"] (by decide)
  exact ⟨l2, h1, h2, h4⟩

/-- Claim C7: a validation pass runs exactly at the epochs of the run
range divisible by the fixed interval 10, for every start epoch ≥ 1 and
every total epoch count — in particular the schedule never depends on the
checkpoint interval T/10, even when that interval is 0 and the run
aborts. -/
theorem validation_cadence (S T : ℕ) (hS : 1 ≤ S) :
    (trainSchedule S T).validated =
      (epochRange S T).filter (fun e => e % 10 = 0) := by
  by_cases hi : T / 10 = 0
  · have hT : T < 10 := by omega
    by_cases hST : S ≤ T
    · rw [trainSchedule, hi, epochRange_cons hST, runEpochs_zero_cons]
      have hS0 : ¬(S % 10 = 0) := by omega
      rw [if_neg hS0]
      symm
      rw [List.filter_eq_nil_iff]
      intro a ha
      rw [← epochRange_cons hST] at ha
      have hb := mem_epochRange.1 ha
      simp only [decide_eq_true_eq]
      omega
    · have hempty : epochRange S T = [] := by
        unfold epochRange
        have h0 : T + 1 - S = 0 := by omega
        rw [h0]
        rfl
      rw [trainSchedule, hempty]
      rfl
  · rw [trainSchedule, runEpochs_pos hi]

/-- Claim C7 witness at total epochs 37 (checkpoint interval 3 diverges
from the validation schedule, which stays 10, 20, 30). -/
theorem validation_cadence_witness :
    (trainSchedule 1 37).validated =
      (epochRange 1 37).filter (fun e => e % 10 = 0) ∧
    (epochRange 1 37).filter (fun e => e % 10 = 0) = [10, 20, 30] :=
  ⟨validation_cadence 1 37 (by decide), by decide⟩

/-- Claim C8: when the configuration requests GPU execution (gpu kwarg
≥ 0) and CUDA is unavailable, the run rejects with GPUNotFoundError from
the constructor and emits no directory-creation or file-open effect: the
output directory is never created and no log file is opened. -/
theorem gpu_reject_no_side_effects (cfg : RunConfig) (env : LoadEnv)
    (hg : 0 ≤ cfg.gpu) (hc : env.cudaAvailable = false) :
    run cfg env = (.error .gpuNotFound, []) := by
  unfold run validate_arguments
  rw [if_pos ⟨hg, hc⟩]

/-- Claim C8 witness: the concrete GPU-requesting configuration on the
CUDA-less environment. -/
theorem gpu_reject_no_side_effects_witness :
    run cfgGpu loadEnvW = (.error .gpuNotFound, []) :=
  gpu_reject_no_side_effects cfgGpu loadEnvW (by decide) rfl

/-- Claim C9: the Optimizer Selector is total over the two supported
names: MomentumSGD yields SGD configured with learning rate 1/100 and
momentum 9/10, and Adam yields Adam with its default configuration. -/
theorem optimizer_selector_total :
    get_optimizer "MomentumSGD" = some (.sgd (1 / 100) (9 / 10)) ∧
    get_optimizer "Adam" = some .adam := by
  constructor
  · norm_num [get_optimizer]
  · rfl

/-- Claim C10: restoring the Run Logger from a snapshot fails exactly
when the snapshot's log history is empty — load_state_dict indexes
logs[-1] before re-emitting it, which raises IndexError on an empty list
— so restore succeeds precisely under the unstated precondition that the
history is non-empty. -/
theorem logger_restore_empty_fails (l : TrainLogger) (s : List String) :
    l.load_state_dict s = none ↔ s = [] := by
  constructor
  · intro h
    by_contra hne
    rw [load_state_dict_of_ne_nil l s hne] at h
    exact Option.noConfusion h
  · intro h
    subst h
    rfl

end TrainPoseNetPy
